import Mathlib

/-
Verification of the RuneScribe execution runtime.

Shallow embedding of the core runtime:
  * src/ast_nodes/ritual_nodes.py      (RealmType, OperationType, statement nodes)
  * src/interpreter/variable_storage.py (SpiritRealm: realm-driven coercion)
  * src/interpreter/execution_engine.py (MysticalExecutor: two-slot accumulator)
  * src/interpreter/spell_interpreter.py (SpellInterpreter: statement loop)

Modelling conventions
  * Python runtime values are the inductive `Value`.  Python floats are
    modelled as exact rationals; the claims checked here touch floating
    point only through parse-and-compare-with-zero, where the rational
    model agrees with IEEE on everything except extreme-exponent
    underflow inputs.
  * Python exceptions become `Except`/error-sum results.  The source
    distinguishes error kinds only by their ValueError message; here the
    distinct messages are distinct constructors.
  * The operation-history strings and all console output are
    presentation-layer telemetry (spec, design notes) and are omitted;
    they never feed back into control flow.
  * The input provider (spec, external interfaces) is a total blocking
    line source: a stream of lines consumed one per invoked variable.
-/

namespace RuneScribe

/-- Python runtime values flowing through the interpreter
(spec data model: integer, float, text, boolean, null, list, mapping,
timestamp).  `null` is Python `None`; `timestamp` keeps the ISO text the
datetime was parsed from. -/
inductive Value where
  | int (n : ℤ)
  | float (q : ℚ)
  | str (s : String)
  | bool (b : Bool)
  | null
  | list (xs : List Value)
  | dict (entries : List (String × Value))
  | timestamp (iso : String)

/-- RealmType from ritual_nodes.py. -/
inductive RealmType where
  | mortal
  | spirit
  | shadow
  | void
  | astral
  | divine
  | temporal
deriving DecidableEq

/-- The .value string of each RealmType member. -/
def RealmType.value : RealmType → String
  | .mortal => "mortal"
  | .spirit => "spirit"
  | .shadow => "shadow"
  | .void => "void"
  | .astral => "astral"
  | .divine => "divine"
  | .temporal => "temporal"

/-- OperationType from ritual_nodes.py (all ten members; the engine
dispatches only the first six). -/
inductive OperationType where
  | union
  | difference
  | fusion
  | division
  | power
  | essence
  | greater_than
  | less_than
  | equals
  | not_equals
deriving DecidableEq

/-- Python treats bool as an int subtype: True is 1, False is 0. -/
def boolInt (b : Bool) : ℤ := if b then 1 else 0

/-- isinstance(x, (int, float)) — in Python this includes bool. -/
def is_numeric : Value → Bool
  | .int _ => true
  | .float _ => true
  | .bool _ => true
  | _ => false

/-- isinstance(x, str). -/
def is_str : Value → Bool
  | .str _ => true
  | _ => false

/-- isinstance(x, bool). -/
def is_bool : Value → Bool
  | .bool _ => true
  | _ => false

/-- The numeric content of a numeric value, as an exact rational. -/
def numQ : Value → ℚ
  | .int n => (n : ℚ)
  | .float q => q
  | .bool b => (boolInt b : ℚ)
  | _ => 0

/-- isinstance(x, int) — an int or a bool, with its integer content. -/
def asPyInt : Value → Option ℤ
  | .int n => some n
  | .bool b => some (boolInt b)
  | _ => Option.none

/-- Python + on two numeric operands: stays an int when both sides are
int-like (int or bool), otherwise produces a float. -/
def num_add (l r : Value) : Value :=
  match asPyInt l, asPyInt r with
  | some a, some b => .int (a + b)
  | _, _ => .float (numQ l + numQ r)

/-- Python - on two numeric operands. -/
def num_sub (l r : Value) : Value :=
  match asPyInt l, asPyInt r with
  | some a, some b => .int (a - b)
  | _, _ => .float (numQ l - numQ r)

/-- Python * on two numeric operands. -/
def num_mul (l r : Value) : Value :=
  match asPyInt l, asPyInt r with
  | some a, some b => .int (a * b)
  | _, _ => .float (numQ l * numQ r)

/-- Python truthiness: bool(x). -/
def truthy : Value → Bool
  | .int n => n != 0
  | .float q => q != 0
  | .str s => !s.isEmpty
  | .bool b => b
  | .null => false
  | .list xs => !xs.isEmpty
  | .dict es => !es.isEmpty
  | .timestamp _ => true

/-- A single-quote character, kept out of string literals. -/
def squote : Char := Char.ofNat 39

/-- Opening brace character. -/
def lbrace : Char := Char.ofNat 123

/-- Closing brace character. -/
def rbrace : Char := Char.ofNat 125

/-- Python repr of a float under the exact-rational model.  Values with
denominator 1 print the way CPython prints integral floats; the IEEE
shortest-round-trip decimal of other values is not modelled (no claim
exercises it). -/
def floatRepr (q : ℚ) : String :=
  if q.den = 1 then toString q.num ++ ".0"
  else toString q.num ++ "/" ++ toString q.den

mutual

/-- Python repr(), as used for list/dict elements inside str(). -/
def pyRepr : Value → String
  | .int n => toString n
  | .float q => floatRepr q
  | .str s => String.singleton squote ++ s ++ String.singleton squote
  | .bool b => if b then "True" else "False"
  | .null => "None"
  | .list xs => "[" ++ String.intercalate ", " (pyReprList xs) ++ "]"
  | .dict es => String.singleton lbrace ++ String.intercalate ", " (pyReprEntries es)
      ++ String.singleton rbrace
  | .timestamp iso => iso

/-- repr of each element of a list. -/
def pyReprList : List Value → List String
  | [] => []
  | v :: vs => pyRepr v :: pyReprList vs

/-- repr of each key/value entry of a dict. -/
def pyReprEntries : List (String × Value) → List String
  | [] => []
  | (k, v) :: es =>
      (String.singleton squote ++ k ++ String.singleton squote ++ ": " ++ pyRepr v)
        :: pyReprEntries es

end

/-- Python str(): identical to repr except on strings themselves. -/
def pyStr : Value → String
  | .str s => s
  | v => pyRepr v

/-! List-based counterparts of the Python string methods used by the
source (strip, lower, split, contains, replace).  These reduce inside
the kernel, unlike the byte-position implementations of the library.  -/

/-- The ASCII whitespace set stripped by Python (and by int()/float()
around their argument). -/
def pyWhitespace (c : Char) : Bool :=
  c = ' ' ∨ c = '\t' ∨ c = '\n' ∨ c = '\r' ∨ c = Char.ofNat 11 ∨ c = Char.ofNat 12

/-- strip() on a char list. -/
def stripChars (cs : List Char) : List Char :=
  ((cs.dropWhile pyWhitespace).reverse.dropWhile pyWhitespace).reverse

/-- lower(); the ASCII case mapping covers every word table used. -/
def pyLower (s : String) : String :=
  String.mk (s.toList.map Char.toLower)

/-- Membership of a character in a string. -/
def hasChar (s : String) (c : Char) : Bool :=
  s.toList.contains c

/-- split on a one-character separator, keeping empty fragments, as
Python split does. -/
def splitChar (sep : Char) : List Char → List (List Char)
  | [] => [[]]
  | c :: cs =>
    let r := splitChar sep cs
    if c = sep then [] :: r
    else
      match r with
      | g :: gs => (c :: g) :: gs
      | [] => [[c]]

/-- split of a string on a one-character separator. -/
def splitString (s : String) (sep : Char) : List String :=
  (splitChar sep s.toList).map String.mk

/-- Prefix test on char lists (pattern first). -/
def startsWithChars : List Char → List Char → Bool
  | [], _ => true
  | _ :: _, [] => false
  | p :: ps, c :: cs => p == c && startsWithChars ps cs

/-- Remove every non-overlapping occurrence of pat, scanning left to
right.  The fuel bounds the recursion and is instantiated with the
text length; every step consumes at least one character. -/
def removeOccs (pat : List Char) : ℕ → List Char → List Char
  | _, [] => []
  | 0, cs => cs
  | fuel + 1, c :: cs =>
    if startsWithChars pat (c :: cs) then
      match pat with
      | [] => c :: removeOccs pat fuel cs
      | _ :: ps => removeOccs pat fuel (cs.drop ps.length)
    else c :: removeOccs pat fuel cs

/-! Model of the Python builtins int() and float() on strings: optional
surrounding whitespace, optional sign, digit groups with underscores
allowed only between digits.  Accepted spellings outside this grammar
(such as float reading inf or nan) are not modelled; no claim depends
on them. -/

/-- Validate the tail of a digit group: digits, with each underscore
flanked by digits.  Returns the digits with underscores removed. -/
def digitGroupAux : List Char → Option (List Char)
  | [] => some []
  | c :: cs =>
    if c.isDigit then (digitGroupAux cs).map (c :: ·)
    else if c = '_' then
      match cs with
      | [] => Option.none
      | d :: _ => if d.isDigit then digitGroupAux cs else Option.none
    else Option.none

/-- A nonempty digit group starting with a digit. -/
def digitGroup : List Char → Option (List Char)
  | [] => Option.none
  | c :: cs => if c.isDigit then (digitGroupAux cs).map (c :: ·) else Option.none

/-- Decimal value of a digit list. -/
def digitsToNat (ds : List Char) : ℕ :=
  ds.foldl (fun a c => 10 * a + (c.toNat - 48)) 0

/-- Model of Python int(string). -/
def pyIntParse (s : String) : Option ℤ :=
  match stripChars s.toList with
  | '+' :: rest => (digitGroup rest).map (fun ds => (digitsToNat ds : ℤ))
  | '-' :: rest => (digitGroup rest).map (fun ds => -(digitsToNat ds : ℤ))
  | cs => (digitGroup cs).map (fun ds => (digitsToNat ds : ℤ))

/-- Split a char list at the first exponent marker. -/
def splitOnE : List Char → List Char × Option (List Char)
  | [] => ([], Option.none)
  | c :: cs =>
    if c = 'e' ∨ c = 'E' then ([], some cs)
    else
      let p := splitOnE cs
      (c :: p.1, p.2)

/-- Split a char list at the first dot. -/
def splitOnDot : List Char → List Char × Option (List Char)
  | [] => ([], Option.none)
  | c :: cs =>
    if c = '.' then ([], some cs)
    else
      let p := splitOnDot cs
      (c :: p.1, p.2)

/-- Signed exponent of a float literal. -/
def parseExp (cs : List Char) : Option ℤ :=
  match cs with
  | '+' :: rest => (digitGroup rest).map (fun ds => (digitsToNat ds : ℤ))
  | '-' :: rest => (digitGroup rest).map (fun ds => -(digitsToNat ds : ℤ))
  | _ => (digitGroup cs).map (fun ds => (digitsToNat ds : ℤ))

/-- Mantissa of a float literal: digits with an optional dot; the
fraction may be empty only when an integer part is present. -/
def parseMantissa (cs : List Char) : Option ℚ :=
  let p := splitOnDot cs
  match p.2 with
  | Option.none => (digitGroup p.1).map (fun ds => (digitsToNat ds : ℚ))
  | some fp =>
    if fp.isEmpty then (digitGroup p.1).map (fun ds => (digitsToNat ds : ℚ))
    else
      match digitGroup fp with
      | Option.none => Option.none
      | some fds =>
        let frac : ℚ := (digitsToNat fds : ℚ) / ((10 : ℚ) ^ fds.length)
        if p.1.isEmpty then some frac
        else (digitGroup p.1).map (fun ds => (digitsToNat ds : ℚ) + frac)

/-- Model of Python float(string), as an exact rational. -/
def pyFloatParse (s : String) : Option ℚ :=
  let cs := stripChars s.toList
  let sign : ℚ × List Char :=
    match cs with
    | '+' :: rest => (1, rest)
    | '-' :: rest => (-1, rest)
    | rest => (1, rest)
  let q := splitOnE sign.2
  match q.2 with
  | Option.none => (parseMantissa q.1).map (fun m => sign.1 * m)
  | some ep =>
    match parseMantissa q.1, parseExp ep with
    | some m, some e => some (sign.1 * m * (10 : ℚ) ^ e)
    | _, _ => Option.none

/-! Realm-driven text coercion, from variable_storage.py. -/

/-- The one conversion error kind: inside _convert_by_realm every
exception is caught alike by the catch-all handler. -/
inductive ConvErr where
  | failure
deriving DecidableEq

/-- _convert_mortal: try int first, a single character is kept as
itself (in Python the same one-character string), else the text. -/
def convert_mortal (value : String) : Value :=
  match pyIntParse value with
  | some n => .int n
  | Option.none =>
    if value.length = 1 then .str value else .str value

/-- The int/long leg of _convert_spirit: the magnitude test on 2^31
returns the same integer on both branches. -/
def spirit_int_leg (value : String) : Value :=
  match pyIntParse value with
  | some n => .int n
  | Option.none => .str value

/-- _convert_spirit: a dotted text that parses as float becomes a
float; a failed float parse falls through to the int leg, as the
ValueError is caught and the function continues. -/
def convert_spirit (value : String) : Value :=
  if hasChar value '.' then
    match pyFloatParse value with
    | some q => .float q
    | Option.none => spirit_int_leg value
  else spirit_int_leg value

/-- Base-2 value of an all-0/1 char list; int(x, 2) on the empty
string raises, which surfaces as a conversion error. -/
def binParse (cs : List Char) : Option ℤ :=
  if cs.isEmpty then Option.none
  else some ((cs.foldl (fun a c => 2 * a + (c.toNat - 48)) 0 : ℕ) : ℤ)

/-- _convert_shadow: the truthy/falsy word lists, then base-2 digits,
then bool(value).  The only failing input is the empty string, whose
vacuous all-binary check reaches int with no digits.  -/
def convert_shadow (value : String) : Except ConvErr Value :=
  let lower_val := pyLower value
  if lower_val ∈ ["true", "yes", "light", "1", "on"] then .ok (.bool true)
  else if lower_val ∈ ["false", "no", "dark", "0", "off"] then .ok (.bool false)
  else if value.toList.all (fun c => c = '0' ∨ c = '1') then
    match binParse value.toList with
    | some n => .ok (.int n)
    | Option.none => .error .failure
  else .ok (.bool (!value.isEmpty))

/-- One atom of a bracketed literal: an integer or a quoted string. -/
def parseAtom (t : String) : Option Value :=
  let tl := stripChars t.toList
  match pyIntParse t with
  | some n => some (.int n)
  | Option.none =>
    match tl with
    | c :: rest =>
      if (c = squote ∨ c = '"') ∧ rest ≠ [] ∧ rest.getLast? = some c
          ∧ rest.dropLast.all (fun d => d ≠ c) then
        some (.str (String.mk rest.dropLast))
      else Option.none
    | [] => Option.none

/-- Model of the source feeding a bracket-delimited input to the
Python builtin eval, restricted to flat literal lists of integers and
quoted strings; anything else is a failure, which the caller absorbs.
(The spec's design notes call this use of eval out for replacement by
exactly such a structured-literal parser.) -/
def evalListLiteral (raw : String) : Except ConvErr Value :=
  let inner := stripChars ((raw.toList.drop 1).dropLast)
  if inner.isEmpty then .ok (.list [])
  else
    match (splitChar ',' inner).mapM (fun g => parseAtom (String.mk g)) with
    | some vs => .ok (.list vs)
    | Option.none => .error .failure

/-- One key/value entry of a brace-delimited literal: quoted key,
atom value. -/
def parseEntry (t : String) : Option (String × Value) :=
  match splitChar ':' t.toList with
  | [k, v] =>
    match parseAtom (String.mk k), parseAtom (String.mk v) with
    | some (.str key), some value => some (key, value)
    | _, _ => Option.none
  | _ => Option.none

/-- Model of eval on a brace-delimited input, restricted to flat
string-keyed literal objects; anything else is an absorbed failure. -/
def evalDictLiteral (raw : String) : Except ConvErr Value :=
  let inner := stripChars ((raw.toList.drop 1).dropLast)
  if inner.isEmpty then .ok (.dict [])
  else
    match (splitChar ',' inner).mapM (fun g => parseEntry (String.mk g)) with
    | some es => .ok (.dict es)
    | Option.none => .error .failure

/-- Recognizer for datetime.fromisoformat: a YYYY-MM-DD date with an
optional HH:MM:SS time part.  Range checks approximate the library;
only the temporal realm's totality depends on this definition. -/
def isIsoTimestamp (s : String) : Bool :=
  let two (a b : Char) : ℕ := (a.toNat - 48) * 10 + (b.toNat - 48)
  let dateOk (y1 y2 y3 y4 s1 m1 m2 s2 d1 d2 : Char) : Bool :=
    y1.isDigit && y2.isDigit && y3.isDigit && y4.isDigit &&
    s1 = '-' && m1.isDigit && m2.isDigit && s2 = '-' && d1.isDigit && d2.isDigit &&
    decide (1 ≤ two m1 m2) && decide (two m1 m2 ≤ 12) &&
    decide (1 ≤ two d1 d2) && decide (two d1 d2 ≤ 31)
  match s.toList with
  | [y1, y2, y3, y4, s1, m1, m2, s2, d1, d2] =>
    dateOk y1 y2 y3 y4 s1 m1 m2 s2 d1 d2
  | [y1, y2, y3, y4, s1, m1, m2, s2, d1, d2, sep, h1, h2, c1, mi1, mi2, c2, se1, se2] =>
    dateOk y1 y2 y3 y4 s1 m1 m2 s2 d1 d2 &&
    (sep = 'T' ∨ sep = ' ') && h1.isDigit && h2.isDigit && c1 = ':' &&
    mi1.isDigit && mi2.isDigit && c2 = ':' && se1.isDigit && se2.isDigit &&
    decide (two h1 h2 ≤ 23) && decide (two mi1 mi2 ≤ 59) && decide (two se1 se2 ≤ 59)
  | _ => false

/-- The realm dispatch inside _convert_by_realm, before its catch-all
exception handler.  Paths where the source can raise return an error;
the temporal arm absorbs its own parse failure with an inner handler,
as in the source. -/
def convert_inner (raw_value : String) (realm : RealmType) : Except ConvErr Value :=
  match realm with
  | .mortal => .ok (convert_mortal raw_value)
  | .spirit => .ok (convert_spirit raw_value)
  | .shadow => convert_shadow raw_value
  | .void =>
    .ok (if pyLower raw_value ∈ ["null", "none", "void", ""] then .null else .str raw_value)
  | .astral =>
    if raw_value.toList.head? = some '[' ∧ raw_value.toList.getLast? = some ']' then
      evalListLiteral raw_value
    else .ok (if hasChar raw_value ',' then .list ((splitString raw_value ',').map .str)
              else .list [.str raw_value])
  | .divine =>
    if raw_value.toList.head? = some lbrace ∧ raw_value.toList.getLast? = some rbrace then
      evalDictLiteral raw_value
    else .ok (.dict [("value", .str raw_value)])
  | .temporal =>
    .ok (if isIsoTimestamp raw_value then .timestamp raw_value else .str raw_value)

/-- _convert_by_realm: any conversion failure falls back to the
unmodified input text. -/
def convert_by_realm (raw_value : String) (realm : RealmType) : Value :=
  match convert_inner raw_value realm with
  | .ok v => v
  | .error _ => .str raw_value

/-! Type-label inference, from RealmTypeInference in ritual_nodes.py. -/

/-- infer_mortal_type. -/
def infer_mortal_type (value : String) : String :=
  match pyIntParse value with
  | some _ => "int"
  | Option.none => if value.length = 1 then "char" else "string"

/-- infer_spirit_type: a ValueError from either numeric parse gives
"string"; a dotted value that fails float does not fall through. -/
def infer_spirit_type (value : String) : String :=
  if hasChar value '.' then
    match pyFloatParse value with
    | some _ => "double"
    | Option.none => "string"
  else
    match pyIntParse value with
    | some n => if n.natAbs > 2 ^ 31 then "long" else "int"
    | Option.none => "string"

/-- infer_shadow_type. -/
def infer_shadow_type (value : String) : String :=
  if pyLower value ∈ ["true", "false", "yes", "no", "light", "dark"] then "bool"
  else if value.toList.all (fun c => c = '0' ∨ c = '1') then "binary"
  else "bool"

/-- _infer_type. -/
def infer_type (raw_value : String) (realm : RealmType) : String :=
  match realm with
  | .mortal => infer_mortal_type raw_value
  | .spirit => infer_spirit_type raw_value
  | .shadow => infer_shadow_type raw_value
  | r => r.value

/-- type(value).__name__, for bind_manifestation. -/
def py_type_name : Value → String
  | .int _ => "int"
  | .float _ => "float"
  | .str _ => "str"
  | .bool _ => "bool"
  | .null => "NoneType"
  | .list _ => "list"
  | .dict _ => "dict"
  | .timestamp _ => "datetime"

/-! The Environment, from variable_storage.py.  The source keeps three
dicts (spirits, spirit_realms, spirit_types) that are always written
together with the same key by summon_spirit and bind_manifestation;
they are merged here into one insertion-ordered association list, as
dict iteration order is insertion order. -/

/-- One stored spirit: value, realm and inferred type label. -/
structure Binding where
  value : Value
  realm : RealmType
  type_label : String

/-- SpiritRealm: the variable Environment. -/
structure SpiritRealm where
  spirits : List (String × Binding)

/-- Dict write: overwrite in place when the key exists, else append
(Python dicts keep the first-insertion position of a key). -/
def updateBinding (l : List (String × Binding)) (name : String) (b : Binding) :
    List (String × Binding) :=
  if l.any (fun p => p.1 == name) then
    l.map (fun p => if p.1 == name then (name, b) else p)
  else l ++ [(name, b)]

/-- Dict read. -/
def SpiritRealm.lookup (env : SpiritRealm) (name : String) : Option Binding :=
  env.spirits.lookup name

/-- summon_spirit: realm-coerced value plus realm-based type label. -/
def SpiritRealm.summon_spirit (env : SpiritRealm) (name raw_value : String)
    (realm : RealmType) : SpiritRealm :=
  ⟨updateBinding env.spirits name
    ⟨convert_by_realm raw_value realm, realm, infer_type raw_value realm⟩⟩

/-- has_spirit. -/
def SpiritRealm.has_spirit (env : SpiritRealm) (name : String) : Bool :=
  (env.lookup name).isSome

/-- bind_manifestation: store an operation result with its runtime
type name as label. -/
def SpiritRealm.bind_manifestation (env : SpiritRealm) (name : String) (value : Value)
    (realm : RealmType) : SpiritRealm :=
  ⟨updateBinding env.spirits name ⟨value, realm, py_type_name value⟩⟩

/-! The Execution Engine, from execution_engine.py. -/

/-- The distinct failure messages raised inside the operation
dispatch: the division guard, numeric coercions that fail, and the
unknown-operation arm.  The source tells them apart by message text. -/
inductive OpErr where
  | division_by_zero
  | coercion_failure
  | unknown_operation
deriving DecidableEq

/-- Errors out of manifest_union: the staging check raises directly;
every failure inside the try block is re-raised wrapped in the
"Mystical operation failed" message, keeping the inner kind. -/
inductive EngineErr where
  | missing_operand
  | op_failed (e : OpErr)
deriving DecidableEq

/-- Interpreter-level errors, told apart by ValueError message. -/
inductive RunErr where
  | unbound_variable
  | engine (e : EngineErr)
  | unknown_statement
deriving DecidableEq

/-- get_spirit_essence. -/
def SpiritRealm.get_spirit_essence (env : SpiritRealm) (name : String) :
    Except RunErr Value :=
  match env.lookup name with
  | some b => .ok b.value
  | Option.none => .error .unbound_variable

/-- get_spirit_realm. -/
def SpiritRealm.get_spirit_realm (env : SpiritRealm) (name : String) :
    Except RunErr RealmType :=
  match env.lookup name with
  | some b => .ok b.realm
  | Option.none => .error .unbound_variable

/-- get_realm_status: the diagnostic report enumerating every live
binding with value, type label and realm. -/
def SpiritRealm.get_realm_status (env : SpiritRealm) : String :=
  if env.spirits.isEmpty then
    "The spirit realm is empty. No spirits have been summoned."
  else
    String.intercalate "\n"
      ("=== SPIRIT REALM STATUS ===" ::
        env.spirits.map (fun p =>
          "  " ++ p.1 ++ ": " ++ pyStr p.2.value ++ " (" ++ p.2.type_label
            ++ " from " ++ p.2.realm.value ++ " realm)"))

/-- MysticalExecutor: the two accumulator slots.  The source holds raw
Python values with None meaning empty; an Option layer records whether
a slot was staged, and `slot_is_none` collapses a staged null to empty
exactly as the source's `is None` checks do. -/
structure MysticalExecutor where
  channeled_essence : Option Value
  woven_force : Option Value

/-- The `is None` test on a slot. -/
def slot_is_none : Option Value → Bool
  | Option.none => true
  | some .null => true
  | some _ => false

/-- channel_essence (the variable name feeds only the history log). -/
def MysticalExecutor.channel_essence (ex : MysticalExecutor) (value : Value) :
    MysticalExecutor :=
  { ex with channeled_essence := some value }

/-- weave_force. -/
def MysticalExecutor.weave_force (ex : MysticalExecutor) (value : Value) :
    MysticalExecutor :=
  { ex with woven_force := some value }

/-- float(x) on an arbitrary operand: numerics pass through, strings
are parsed, everything else raises. -/
def pyFloatOf : Value → Except OpErr ℚ
  | .int n => .ok (n : ℚ)
  | .float q => .ok q
  | .bool b => .ok ((boolInt b : ℤ) : ℚ)
  | .str s =>
    match pyFloatParse s with
    | some q => .ok q
    | Option.none => .error .coercion_failure
  | _ => .error .coercion_failure

/-- Python + for the final fallback of _perform_union. -/
def py_add (l r : Value) : Option Value :=
  if is_numeric l && is_numeric r then some (num_add l r)
  else
    match l, r with
    | .str a, .str b => some (.str (a ++ b))
    | .list a, .list b => some (.list (a ++ b))
    | _, _ => Option.none

/-- Python `or`: the left operand when truthy, else the right. -/
def py_or (l r : Value) : Value :=
  if truthy l then l else r

/-- _perform_union.  Note the dispatch order of the source: the text
check precedes the numeric check, and bools satisfy the numeric
isinstance, so the boolean arm is reached only when one side is a bool
and the other is neither text nor numeric. -/
def perform_union (left right : Value) : Value :=
  if is_str left || is_str right then .str (pyStr left ++ pyStr right)
  else if is_numeric left && is_numeric right then num_add left right
  else if is_bool left || is_bool right then py_or left right
  else
    match left, right with
    | .list a, .list b => .list (a ++ b)
    | l, r =>
      match py_add l r with
      | some v => v
      | Option.none => .str (pyStr l ++ pyStr r)

/-- left.replace(right, ""): all occurrences removed; an empty pattern
leaves the text unchanged, as in Python with an empty replacement. -/
def pyReplace (a b : String) : String :=
  if b = "" then a else String.mk (removeOccs b.toList a.toList.length a.toList)

/-- _perform_difference.  The numeric arm precedes the bool/bool arm,
and bools are numeric, so the bool/bool arm is unreachable; it is kept
to mirror the source. -/
def perform_difference (left right : Value) : Except OpErr Value :=
  if is_numeric left && is_numeric right then .ok (num_sub left right)
  else
    match left, right with
    | .bool a, .bool b => .ok (.bool (a && !b))
    | .str a, .str b => .ok (.str (pyReplace a b))
    | l, r => do
      let lq ← pyFloatOf l
      let rq ← pyFloatOf r
      return .float (lq - rq)

/-- Python sequence repetition: non-positive counts give empty. -/
def repeatStr (s : String) (n : ℤ) : String :=
  if n ≤ 0 then "" else String.join (List.replicate n.toNat s)

/-- List repetition. -/
def repeatList (xs : List Value) (n : ℤ) : List Value :=
  if n ≤ 0 then [] else (List.replicate n.toNat xs).flatten

/-- _perform_fusion.  The repetition arms accept a bool count, since
isinstance(x, int) holds for bools; the bool/bool arm is unreachable
behind the numeric arm and kept to mirror the source. -/
def perform_fusion (left right : Value) : Except OpErr Value :=
  if is_numeric left && is_numeric right then .ok (num_mul left right)
  else
    match left, right with
    | .str s, .int n => .ok (.str (repeatStr s n))
    | .str s, .bool b => .ok (.str (repeatStr s (boolInt b)))
    | .bool a, .bool b => .ok (.bool (a && b))
    | .list xs, .int n => .ok (.list (repeatList xs n))
    | .list xs, .bool b => .ok (.list (repeatList xs (boolInt b)))
    | l, r => do
      let lq ← pyFloatOf l
      let rq ← pyFloatOf r
      return .float (lq * rq)

/-- _perform_division: a numeric pair checks the right operand against
zero and divides; otherwise the right operand is float-coerced and
checked before the left operand is touched. -/
def perform_division (left right : Value) : Except OpErr Value :=
  if is_numeric left && is_numeric right then
    if numQ right = 0 then .error .division_by_zero
    else .ok (.float (numQ left / numQ right))
  else do
    let right_num ← pyFloatOf right
    if right_num = 0 then .error .division_by_zero
    else do
      let lq ← pyFloatOf left
      return .float (lq / right_num)

/-- Python ** restricted to integral exponents (the rational model has
no transcendental powers; no claim touches the power operation).  An
int pair with nonnegative exponent stays an int; a zero base with a
negative exponent raises, as in Python. -/
def py_pow (l r : Value) : Except OpErr Value :=
  match asPyInt l, asPyInt r with
  | some a, some b =>
    if 0 ≤ b then .ok (.int (a ^ b.toNat))
    else if a = 0 then .error .division_by_zero
    else .ok (.float ((a : ℚ) ^ b))
  | _, _ =>
    let lq := numQ l
    let rq := numQ r
    if rq.den = 1 then
      if lq = 0 ∧ rq.num < 0 then .error .division_by_zero
      else .ok (.float (lq ^ rq.num))
    else .error .coercion_failure

/-- _perform_power. -/
def perform_power (left right : Value) : Except OpErr Value :=
  if is_numeric left && is_numeric right then py_pow left right
  else do
    let lq ← pyFloatOf left
    let rq ← pyFloatOf right
    py_pow (.float lq) (.float rq)

/-- _perform_essence: identity on the left operand. -/
def perform_essence (left : Value) : Value := left

/-- The operation dispatch inside manifest_union's try block; the four
comparison members hit the unknown-operation arm. -/
def dispatch_operation (operation : OperationType) (left right : Value) :
    Except OpErr Value :=
  match operation with
  | .union => .ok (perform_union left right)
  | .difference => perform_difference left right
  | .fusion => perform_fusion left right
  | .division => perform_division left right
  | .power => perform_power left right
  | .essence => .ok (perform_essence left)
  | _ => .error .unknown_operation

/-- manifest_union: the staging check (essence needs only the left
slot, every other operation needs both), then the dispatch.  The
source clears both slots only after a successful dispatch; the
staging-check raise happens before the try block and the exception
handler re-raises without clearing, so on every failure the slots keep
their previous contents.  Returns the result together with the
post-call executor state. -/
def MysticalExecutor.manifest_union (ex : MysticalExecutor)
    (operation : OperationType) : Except EngineErr Value × MysticalExecutor :=
  if (if operation = OperationType.essence then slot_is_none ex.channeled_essence
      else slot_is_none ex.channeled_essence || slot_is_none ex.woven_force) then
    (.error .missing_operand, ex)
  else
    match dispatch_operation operation (ex.channeled_essence.getD .null)
        (ex.woven_force.getD .null) with
    | .ok result =>
      (.ok result, { channeled_essence := Option.none, woven_force := Option.none })
    | .error e => (.error (.op_failed e), ex)

/-! The Interpreter, from spell_interpreter.py and the statement nodes
of ritual_nodes.py. -/

/-- ComparisonNode. -/
structure ComparisonNode where
  left : String
  operation : OperationType
  right : String

/-- The condition field of the control-flow nodes: a ComparisonNode or
a raw string. -/
inductive ConditionExpr where
  | cmp (c : ComparisonNode)
  | text (s : String)

/-- The statement variants of the AST.  Conditional, WhileLoop and
ComparisonNode exist in the data model; execute_statement has no arm
for them. -/
inductive SpellNode where
  | invoke (vars : List String) (realm : RealmType)
  | channel (v : String)
  | weave (v : String)
  | manifest (operation : OperationType) (operands : List String) (result_variable : String)
  | speak (v : String) (target : String)
  | conditional (condition : ConditionExpr) (then_statements : List SpellNode)
      (else_statements : Option (List SpellNode))
  | whileLoop (condition : ConditionExpr) (body_statements : List SpellNode)
  | comparison (c : ComparisonNode)

/-- Interpreter state: the Environment, the Engine, and the external
input provider, modelled per the spec's interface contract as a total
blocking line source consumed one line per invoked variable. -/
structure SpellInterpreter where
  spirit_realm : SpiritRealm
  executor : MysticalExecutor
  inputs : ℕ → String
  cursor : ℕ

/-- One blocking read from the input provider. -/
def read_line (st : SpellInterpreter) : String × SpellInterpreter :=
  (st.inputs st.cursor, { st with cursor := st.cursor + 1 })

/-- _execute_invocation: one line of input and one summon per
variable. -/
def execute_invocation (st : SpellInterpreter) (vars : List String)
    (realm : RealmType) : SpellInterpreter :=
  vars.foldl
    (fun s v =>
      let p := read_line s
      { p.2 with spirit_realm := p.2.spirit_realm.summon_spirit v p.1 realm })
    st

/-- _infer_result_realm: collect the realms of the operand names that
are bound (has_spirit guards get_spirit_realm, so unbound names are
skipped), then promote: any SPIRIT wins, else any SHADOW, else
MORTAL; an empty collection short-circuits to MORTAL. -/
def infer_result_realm (env : SpiritRealm) (operands : List String) : RealmType :=
  let realms := operands.filterMap (fun operand => (env.lookup operand).map Binding.realm)
  if realms.isEmpty then RealmType.mortal
  else if RealmType.spirit ∈ realms then RealmType.spirit
  else if RealmType.shadow ∈ realms then RealmType.shadow
  else RealmType.mortal

/-- execute_statement: dispatch on the statement tag; the data-model
tags without an arm raise the unknown-statement error.  Returns the
state (the source mutates in place) and an optional error. -/
def execute_statement (st : SpellInterpreter) (stmt : SpellNode) :
    SpellInterpreter × Option RunErr :=
  match stmt with
  | .invoke vs realm => (execute_invocation st vs realm, Option.none)
  | .channel v =>
    match st.spirit_realm.get_spirit_essence v with
    | .error e => (st, some e)
    | .ok value => ({ st with executor := st.executor.channel_essence value }, Option.none)
  | .weave v =>
    match st.spirit_realm.get_spirit_essence v with
    | .error e => (st, some e)
    | .ok value => ({ st with executor := st.executor.weave_force value }, Option.none)
  | .manifest operation operands result_variable =>
    match st.executor.manifest_union operation with
    | (.error e, ex) => ({ st with executor := ex }, some (.engine e))
    | (.ok result, ex) =>
      let result_realm := infer_result_realm st.spirit_realm operands
      ({ st with
          executor := ex,
          spirit_realm :=
            st.spirit_realm.bind_manifestation result_variable result result_realm },
        Option.none)
  | .speak v _target =>
    match st.spirit_realm.get_spirit_essence v with
    | .error e => (st, some e)
    | .ok _ => (st, Option.none)
  | .conditional _ _ _ => (st, some .unknown_statement)
  | .whileLoop _ _ => (st, some .unknown_statement)
  | .comparison _ => (st, some .unknown_statement)

/-- execute_spell_program: single pass, one failure boundary; the
first statement error ends the run with that error, leaving the state
as it stood at the failure. -/
def execute_spell_program (st : SpellInterpreter) :
    List SpellNode → SpellInterpreter × Option RunErr
  | [] => (st, Option.none)
  | stmt :: rest =>
    match execute_statement st stmt with
    | (st', Option.none) => execute_spell_program st' rest
    | (st', some e) => (st', some e)

/-! Helper lemmas shared by the claim theorems. -/

/-- A dict write is readable back under its key. -/
theorem lookup_updateBinding (l : List (String × Binding)) (name : String) (b : Binding) :
    List.lookup name (updateBinding l name b) = some b := by
  induction l with
  | nil => simp [updateBinding, List.lookup]
  | cons p t ih =>
    obtain ⟨k, v⟩ := p
    by_cases h1 : k = name
    · subst h1
      unfold updateBinding
      rw [if_pos (by simp [List.any_cons]), List.map_cons]
      rw [show (if (((k, v) : String × Binding).1 == k) = true then (k, b) else (k, v))
            = (k, b) by simp]
      simp [List.lookup]
    · have h1b : (k == name) = false := beq_eq_false_iff_ne.mpr h1
      have h1c : (name == k) = false := beq_eq_false_iff_ne.mpr (Ne.symm h1)
      unfold updateBinding
      simp only [List.any_cons, h1b, Bool.false_or]
      by_cases h2 : (t.any fun q => q.1 == name) = true
      · rw [if_pos h2, List.map_cons]
        unfold updateBinding at ih
        rw [if_pos h2] at ih
        rw [show (if ((k, v).1 == name) = true then (name, b) else (k, v)) = (k, v) by
          simp [h1b]]
        simpa [List.lookup, h1c] using ih
      · rw [if_neg h2, List.cons_append]
        unfold updateBinding at ih
        rw [if_neg h2] at ih
        simpa [List.lookup, h1c] using ih

/-- The engine state after manifest_union: cleared on success, kept
intact on failure. -/
theorem manifest_union_snd (ex : MysticalExecutor) (op : OperationType) :
    (ex.manifest_union op).2 =
      match (ex.manifest_union op).1 with
      | .ok _ => ⟨Option.none, Option.none⟩
      | .error _ => ex := by
  unfold MysticalExecutor.manifest_union
  by_cases hm : (if op = OperationType.essence then slot_is_none ex.channeled_essence
      else slot_is_none ex.channeled_essence || slot_is_none ex.woven_force) = true
  · rw [if_pos hm]
  · rw [if_neg hm]
    cases hd : dispatch_operation op (ex.channeled_essence.getD .null)
        (ex.woven_force.getD .null) <;> simp

/-- A failing statement leaves the interpreter state untouched. -/
theorem execute_statement_error_eq (st : SpellInterpreter) (stmt : SpellNode)
    (st' : SpellInterpreter) (e : RunErr)
    (h : execute_statement st stmt = (st', some e)) : st' = st := by
  cases stmt with
  | invoke vs realm => simp [execute_statement] at h
  | channel v =>
    cases hv : st.spirit_realm.get_spirit_essence v <;>
      simp [execute_statement, hv] at h
    exact h.1.symm
  | weave v =>
    cases hv : st.spirit_realm.get_spirit_essence v <;>
      simp [execute_statement, hv] at h
    exact h.1.symm
  | manifest op operands res =>
    have hsnd := manifest_union_snd st.executor op
    cases hm : st.executor.manifest_union op with
    | mk r ex2 =>
      rw [hm] at hsnd
      cases r with
      | ok v => simp [execute_statement, hm] at h
      | error e0 =>
        simp only [execute_statement, hm, Prod.mk.injEq] at h
        simp only at hsnd
        rw [← h.1, hsnd]
  | speak v target =>
    cases hv : st.spirit_realm.get_spirit_essence v <;>
      simp [execute_statement, hv] at h
    exact h.1.symm
  | conditional c t e2 =>
    simp [execute_statement] at h
    exact h.1.symm
  | whileLoop c body =>
    simp [execute_statement] at h
    exact h.1.symm
  | comparison c =>
    simp [execute_statement] at h
    exact h.1.symm

/-- Running a successful prefix first, then the rest. -/
theorem execute_spell_program_append (pre : List SpellNode) :
    ∀ (st st1 : SpellInterpreter) (rest : List SpellNode),
      execute_spell_program st pre = (st1, Option.none) →
      execute_spell_program st (pre ++ rest) = execute_spell_program st1 rest := by
  induction pre with
  | nil =>
    intro st st1 rest h
    simp only [execute_spell_program] at h
    cases h
    rfl
  | cons s t ih =>
    intro st st1 rest h
    simp only [List.cons_append, execute_spell_program] at h ⊢
    cases hs : execute_statement st s with
    | mk st2 r =>
      rw [hs] at h
      cases r with
      | none => exact ih st2 st1 rest h
      | some e => simp at h

/-- float() agrees with the numeric content on numeric operands. -/
theorem pyFloatOf_numeric (r : Value) (h : is_numeric r = true) :
    pyFloatOf r = .ok (numQ r) := by
  cases r <;> simp_all [is_numeric, pyFloatOf, numQ]

/-- _perform_division fails on a right operand that float-coerces to
zero, whatever the left operand is. -/
theorem perform_division_zero (l r : Value) (h : pyFloatOf r = .ok 0) :
    perform_division l r = .error .division_by_zero := by
  unfold perform_division
  by_cases hn : (is_numeric l && is_numeric r) = true
  · have hr : is_numeric r = true := (Bool.and_eq_true _ _ |>.mp hn).2
    have : numQ r = 0 := by
      have := pyFloatOf_numeric r hr
      rw [this] at h
      exact (Except.ok.injEq _ _ |>.mp h)
    rw [if_pos hn, if_pos this]
  · rw [if_neg hn]
    simp [h, Bind.bind, Except.bind]

/-- Promotion behavior of _infer_result_realm in terms of the bound
operand realms. -/
theorem infer_result_realm_cases (env : SpiritRealm) (operands : List String) :
    ((∃ o ∈ operands, (env.lookup o).map Binding.realm = some RealmType.spirit) →
      infer_result_realm env operands = RealmType.spirit) ∧
    ((¬ ∃ o ∈ operands, (env.lookup o).map Binding.realm = some RealmType.spirit) →
      (∃ o ∈ operands, (env.lookup o).map Binding.realm = some RealmType.shadow) →
      infer_result_realm env operands = RealmType.shadow) ∧
    ((∀ o ∈ operands, (env.lookup o).map Binding.realm ≠ some RealmType.spirit) →
      (∀ o ∈ operands, (env.lookup o).map Binding.realm ≠ some RealmType.shadow) →
      infer_result_realm env operands = RealmType.mortal) := by
  have hmem : ∀ r : RealmType,
      r ∈ operands.filterMap (fun o => (env.lookup o).map Binding.realm) ↔
        ∃ o ∈ operands, (env.lookup o).map Binding.realm = some r := by
    intro r
    simp [List.mem_filterMap]
  refine ⟨?_, ?_, ?_⟩
  · intro hsp
    have hm := (hmem RealmType.spirit).mpr hsp
    have hne : ¬(operands.filterMap
        (fun o => (env.lookup o).map Binding.realm)).isEmpty = true := by
      simp only [List.isEmpty_iff]
      exact List.ne_nil_of_mem hm
    simp only [infer_result_realm]
    rw [if_neg hne, if_pos hm]
  · intro hnsp hsh
    have hm := (hmem RealmType.shadow).mpr hsh
    have hnspm : ¬RealmType.spirit ∈ operands.filterMap
        (fun o => (env.lookup o).map Binding.realm) := fun hc => hnsp ((hmem _).mp hc)
    have hne : ¬(operands.filterMap
        (fun o => (env.lookup o).map Binding.realm)).isEmpty = true := by
      simp only [List.isEmpty_iff]
      exact List.ne_nil_of_mem hm
    simp only [infer_result_realm]
    rw [if_neg hne, if_neg hnspm, if_pos hm]
  · intro hnsp hnsh
    have hnspm : ¬RealmType.spirit ∈ operands.filterMap
        (fun o => (env.lookup o).map Binding.realm) := by
      intro hc
      obtain ⟨o, ho, hr⟩ := (hmem _).mp hc
      exact hnsp o ho hr
    have hnshm : ¬RealmType.shadow ∈ operands.filterMap
        (fun o => (env.lookup o).map Binding.realm) := by
      intro hc
      obtain ⟨o, ho, hr⟩ := (hmem _).mp hc
      exact hnsh o ho hr
    simp only [infer_result_realm]
    by_cases he : (operands.filterMap
        (fun o => (env.lookup o).map Binding.realm)).isEmpty = true
    · rw [if_pos he]
    · rw [if_neg he, if_neg hnspm, if_neg hnshm]

/-! The claims. -/

/-- C1 counterexample: a Split of 10 by 0 fails, and after the failed
evaluate call both accumulator slots still hold their staged values —
the claim that both slots are cleared on failure is false on the
code. -/
theorem c1_slots_cleared_counterexample :
    (MysticalExecutor.manifest_union ⟨some (Value.int 10), some (Value.int 0)⟩
        OperationType.division).1
      = Except.error (EngineErr.op_failed OpErr.division_by_zero) ∧
    (MysticalExecutor.manifest_union ⟨some (Value.int 10), some (Value.int 0)⟩
        OperationType.division).2
      = ⟨some (Value.int 10), some (Value.int 0)⟩ ∧
    (some (Value.int 10) : Option Value) ≠ Option.none :=
  ⟨rfl, rfl, by simp⟩

/-- C1 (amended): after a successful evaluate call both accumulator
slots are empty; after a failed call the slots keep exactly the values
they held before the call (the source clears them only on the success
path). -/
theorem c1_slots_cleared_amended (ex : MysticalExecutor) (op : OperationType) :
    (ex.manifest_union op).2 =
      match (ex.manifest_union op).1 with
      | .ok _ => ⟨Option.none, Option.none⟩
      | .error _ => ex :=
  manifest_union_snd ex op

/-- C2 counterexample: the engine stores raw values and tests slots
with `is None`, so channeling the null value stages the left slot yet
Identity fails with MissingOperand instead of returning the staged
null unchanged. -/
theorem c2_missing_operand_counterexample :
    (MysticalExecutor.manifest_union ⟨some Value.null, Option.none⟩
        OperationType.essence).1 = Except.error EngineErr.missing_operand ∧
    (Except.error EngineErr.missing_operand : Except EngineErr Value)
      ≠ Except.ok Value.null :=
  ⟨rfl, by simp⟩

/-- C2 (amended): evaluate fails with MissingOperand exactly when the
required slots are unstaged or staged with the null value — Identity
needs only the left slot and returns every staged non-null left value
unchanged; every other operation requires both slots. -/
theorem c2_missing_operand_amended (ex : MysticalExecutor) :
    (∀ op : OperationType,
      (ex.manifest_union op).1 = Except.error EngineErr.missing_operand ↔
        (if op = OperationType.essence then slot_is_none ex.channeled_essence
         else slot_is_none ex.channeled_essence || slot_is_none ex.woven_force) = true) ∧
    (∀ v : Value, ex.channeled_essence = some v → v ≠ Value.null →
      (ex.manifest_union OperationType.essence).1 = Except.ok v) := by
  constructor
  · intro op
    unfold MysticalExecutor.manifest_union
    by_cases hm : (if op = OperationType.essence then slot_is_none ex.channeled_essence
        else slot_is_none ex.channeled_essence || slot_is_none ex.woven_force) = true
    · rw [if_pos hm]
      simp [hm]
    · rw [if_neg hm]
      cases hd : dispatch_operation op (ex.channeled_essence.getD .null)
          (ex.woven_force.getD .null) <;> simp [hm]
  · intro v hv hnv
    have h1 : slot_is_none ex.channeled_essence = false := by
      rw [hv]
      cases v <;> simp_all [slot_is_none]
    unfold MysticalExecutor.manifest_union
    rw [if_neg (by simp [h1])]
    simp [dispatch_operation, perform_essence, hv]

/-- C2 witness: Identity on a staged integer 7 returns it unchanged. -/
theorem c2_missing_operand_witness :
    (MysticalExecutor.manifest_union ⟨some (Value.int 7), Option.none⟩
        OperationType.essence).1 = Except.ok (Value.int 7) :=
  (c2_missing_operand_amended ⟨some (Value.int 7), Option.none⟩).2 (Value.int 7) rfl
    (by simp)

/-- C3 counterexample: Combine on two staged booleans returns the
arithmetic sum 2 (bools are ints in Python and take the numeric
branch), not the logical OR of the operands. -/
theorem c3_bool_or_counterexample :
    (MysticalExecutor.manifest_union ⟨some (Value.bool true), some (Value.bool true)⟩
        OperationType.union).1 = Except.ok (Value.int 2) ∧
    Value.int 2 ≠ Value.bool (true || true) :=
  ⟨rfl, by simp⟩

/-- C3 (amended): in Combine the text branch and the numeric branch
precede the boolean branch, and bools are numeric, so bool+bool and
bool+numeric (int or float partner, either order) add with booleans as
0/1, text-involved stringifies, and the truthiness-or of Python
applies exactly when a boolean meets an operand that is neither text
nor numeric, in either order; numeric+numeric sums (all int/float
combinations), list concatenation and text concatenation behave as
claimed. -/
theorem c3_union_dispatch_amended :
    (∀ b c : Bool, perform_union (Value.bool b) (Value.bool c)
        = Value.int (boolInt b + boolInt c)) ∧
    (∀ (b : Bool) (n : ℤ),
      perform_union (Value.bool b) (Value.int n) = Value.int (boolInt b + n) ∧
      perform_union (Value.int n) (Value.bool b) = Value.int (n + boolInt b)) ∧
    (∀ (b : Bool) (q : ℚ),
      perform_union (Value.bool b) (Value.float q) = Value.float ((boolInt b : ℚ) + q) ∧
      perform_union (Value.float q) (Value.bool b) = Value.float (q + (boolInt b : ℚ))) ∧
    (∀ (n : ℤ) (q : ℚ),
      perform_union (Value.int n) (Value.float q) = Value.float ((n : ℚ) + q) ∧
      perform_union (Value.float q) (Value.int n) = Value.float (q + (n : ℚ))) ∧
    (∀ p q : ℚ, perform_union (Value.float p) (Value.float q) = Value.float (p + q)) ∧
    (∀ m n : ℤ, perform_union (Value.int m) (Value.int n) = Value.int (m + n)) ∧
    (∀ (b : Bool) (v : Value), is_str v = false → is_numeric v = false →
      perform_union (Value.bool b) v = py_or (Value.bool b) v ∧
      perform_union v (Value.bool b) = py_or v (Value.bool b)) ∧
    (∀ (b : Bool) (xs : List Value),
      perform_union (Value.bool b) (Value.list xs)
        = if b then Value.bool b else Value.list xs) ∧
    (∀ xs ys : List Value,
      perform_union (Value.list xs) (Value.list ys) = Value.list (xs ++ ys)) ∧
    (∀ (s : String) (v : Value),
      perform_union (Value.str s) v = Value.str (s ++ pyStr v) ∧
      perform_union v (Value.str s) = Value.str (pyStr v ++ s)) := by
  refine ⟨?_, ?_, ?_, ?_, ?_, ?_, ?_, ?_, ?_, ?_⟩
  · intro b c
    simp [perform_union, is_str, is_numeric, num_add, asPyInt]
  · intro b n
    constructor <;> simp [perform_union, is_str, is_numeric, num_add, asPyInt]
  · intro b q
    constructor <;> simp [perform_union, is_str, is_numeric, num_add, asPyInt, numQ]
  · intro n q
    constructor <;> simp [perform_union, is_str, is_numeric, num_add, asPyInt, numQ]
  · intro p q
    simp [perform_union, is_str, is_numeric, num_add, asPyInt, numQ]
  · intro m n
    simp [perform_union, is_str, is_numeric, num_add, asPyInt]
  · intro b v hs hn
    refine ⟨?_, ?_⟩ <;>
    · unfold perform_union
      rw [hs, hn]
      simp [is_str, is_numeric, is_bool]
  · intro b xs
    cases b <;> simp [perform_union, is_str, is_numeric, is_bool, py_or, truthy]
  · intro xs ys
    simp [perform_union, is_str, is_numeric, is_bool]
  · intro s v
    constructor <;> simp [perform_union, is_str, pyStr]

/-- C3 witness: the truthiness-or clause at concrete non-text,
non-numeric partners, in both orders. -/
theorem c3_union_dispatch_witness :
    perform_union (Value.bool true) (Value.list [])
      = py_or (Value.bool true) (Value.list []) ∧
    perform_union Value.null (Value.bool false)
      = py_or Value.null (Value.bool false) :=
  ⟨(c3_union_dispatch_amended.2.2.2.2.2.2.1 true (Value.list []) rfl rfl).1,
   (c3_union_dispatch_amended.2.2.2.2.2.2.1 false Value.null rfl rfl).2⟩

/-- C4 counterexample: with the null value staged on the left and an
exact zero staged on the right, a Split evaluation fails with
MissingOperand (the staging check sees the null left as empty), not
with DivisionByZero — so the claim does not hold for a left operand of
the null type. -/
theorem c4_division_zero_counterexample :
    (MysticalExecutor.manifest_union ⟨some Value.null, some (Value.int 0)⟩
        OperationType.division).1 = Except.error EngineErr.missing_operand ∧
    EngineErr.missing_operand ≠ EngineErr.op_failed OpErr.division_by_zero :=
  ⟨rfl, by simp⟩

/-- C4 (amended): for every Split evaluation whose staged left operand
is not null, a right operand that is exactly zero or float-coerces to
zero makes evaluate fail with DivisionByZero, regardless of the left
operand's type (a null left fails earlier with MissingOperand). -/
theorem c4_division_zero_amended (ex : MysticalExecutor) (l r : Value)
    (hl : ex.channeled_essence = some l) (hlnull : l ≠ Value.null)
    (hr : ex.woven_force = some r) (hzero : pyFloatOf r = Except.ok 0) :
    (ex.manifest_union OperationType.division).1
      = Except.error (EngineErr.op_failed OpErr.division_by_zero) := by
  have h1 : slot_is_none ex.channeled_essence = false := by
    rw [hl]
    cases l <;> simp_all [slot_is_none]
  have hrnull : r ≠ Value.null := by
    intro hc
    rw [hc] at hzero
    simp [pyFloatOf] at hzero
  have h2 : slot_is_none ex.woven_force = false := by
    rw [hr]
    cases r <;> simp_all [slot_is_none]
  unfold MysticalExecutor.manifest_union
  rw [if_neg (by simp [h1, h2])]
  simp only [dispatch_operation, hl, hr, Option.getD_some]
  rw [perform_division_zero l r hzero]

/-- C4 witness: left operand an empty list (not numeric), right
operand the exact integer zero. -/
theorem c4_division_zero_witness :
    (MysticalExecutor.manifest_union ⟨some (Value.list []), some (Value.int 0)⟩
        OperationType.division).1
      = Except.error (EngineErr.op_failed OpErr.division_by_zero) :=
  c4_division_zero_amended ⟨some (Value.list []), some (Value.int 0)⟩
    (Value.list []) (Value.int 0) rfl (by simp) rfl (by simp [pyFloatOf])

/-- C5: summon is total — for every realm and input text it stores a
binding built from the (total) realm coercion, and whenever the realm
rule itself fails, the catch-all fallback stores the unmodified input
text. -/
theorem c5_summon_total :
    (∀ (env : SpiritRealm) (name raw : String) (realm : RealmType),
      (env.summon_spirit name raw realm).lookup name
        = some ⟨convert_by_realm raw realm, realm, infer_type raw realm⟩) ∧
    (∀ (raw : String) (realm : RealmType) (e : ConvErr),
      convert_inner raw realm = Except.error e →
      convert_by_realm raw realm = Value.str raw) := by
  constructor
  · intro env name raw realm
    exact lookup_updateBinding env.spirits name _
  · intro raw realm e h
    unfold convert_by_realm
    rw [h]

/-- C5 witness: the shadow realm on the empty string is the one realm
rule that raises (int with no digits); summon still stores a binding
and the stored value is the unmodified text. -/
theorem c5_summon_total_witness :
    (SpiritRealm.summon_spirit ⟨[]⟩ "x" "" RealmType.shadow).lookup "x"
      = some ⟨convert_by_realm "" RealmType.shadow, RealmType.shadow,
          infer_type "" RealmType.shadow⟩ ∧
    convert_by_realm "" RealmType.shadow = Value.str "" :=
  ⟨c5_summon_total.1 ⟨[]⟩ "x" "" RealmType.shadow,
   c5_summon_total.2 "" RealmType.shadow ConvErr.failure rfl⟩

/-- C6: when a statement fails after a successful prefix, the
remaining statements never run, the run ends with that error, the
Environment at the end is exactly the Environment the prefix built
(failing statements do not touch it), and the status report enumerates
the same bindings. -/
theorem c6_abort_keeps_bindings (st : SpellInterpreter) (pre : List SpellNode)
    (bad : SpellNode) (rest : List SpellNode) (st1 st2 : SpellInterpreter) (e : RunErr)
    (h1 : execute_spell_program st pre = (st1, Option.none))
    (h2 : execute_statement st1 bad = (st2, some e)) :
    execute_spell_program st (pre ++ bad :: rest) = (st2, some e) ∧
    st2.spirit_realm = st1.spirit_realm ∧
    st2.spirit_realm.get_realm_status = st1.spirit_realm.get_realm_status := by
  have hst : st2 = st1 := execute_statement_error_eq st1 bad st2 e h2
  refine ⟨?_, by rw [hst], by rw [hst]⟩
  rw [execute_spell_program_append pre st st1 (bad :: rest) h1]
  simp [execute_spell_program, h2]

/-- C6 witness: channel x succeeds, then a Manifest without a staged
right slot fails with MissingOperand; the speak statement after it is
skipped and the binding of x is still present and reported. -/
theorem c6_abort_keeps_bindings_witness :
    execute_spell_program
        ⟨⟨[("x", ⟨Value.int 3, RealmType.mortal, "int"⟩)]⟩,
          ⟨Option.none, Option.none⟩, fun _ => "", 0⟩
        ([SpellNode.channel "x"] ++
          SpellNode.manifest OperationType.union ["x"] "z" :: [SpellNode.speak "x" "void"])
      = (⟨⟨[("x", ⟨Value.int 3, RealmType.mortal, "int"⟩)]⟩,
          ⟨some (Value.int 3), Option.none⟩, fun _ => "", 0⟩,
        some (RunErr.engine EngineErr.missing_operand)) ∧
    (⟨⟨[("x", ⟨Value.int 3, RealmType.mortal, "int"⟩)]⟩,
      ⟨some (Value.int 3), Option.none⟩, fun _ => "", 0⟩ :
        SpellInterpreter).spirit_realm
      = (⟨⟨[("x", ⟨Value.int 3, RealmType.mortal, "int"⟩)]⟩,
          ⟨some (Value.int 3), Option.none⟩, fun _ => "", 0⟩ :
            SpellInterpreter).spirit_realm ∧
    (⟨⟨[("x", ⟨Value.int 3, RealmType.mortal, "int"⟩)]⟩,
      ⟨some (Value.int 3), Option.none⟩, fun _ => "", 0⟩ :
        SpellInterpreter).spirit_realm.get_realm_status
      = (⟨⟨[("x", ⟨Value.int 3, RealmType.mortal, "int"⟩)]⟩,
          ⟨some (Value.int 3), Option.none⟩, fun _ => "", 0⟩ :
            SpellInterpreter).spirit_realm.get_realm_status :=
  c6_abort_keeps_bindings
    ⟨⟨[("x", ⟨Value.int 3, RealmType.mortal, "int"⟩)]⟩,
      ⟨Option.none, Option.none⟩, fun _ => "", 0⟩
    [SpellNode.channel "x"]
    (SpellNode.manifest OperationType.union ["x"] "z")
    [SpellNode.speak "x" "void"]
    ⟨⟨[("x", ⟨Value.int 3, RealmType.mortal, "int"⟩)]⟩,
      ⟨some (Value.int 3), Option.none⟩, fun _ => "", 0⟩
    ⟨⟨[("x", ⟨Value.int 3, RealmType.mortal, "int"⟩)]⟩,
      ⟨some (Value.int 3), Option.none⟩, fun _ => "", 0⟩
    (RunErr.engine EngineErr.missing_operand) rfl rfl

/-- C7: a successful Manifest binds its result under a realm promoted
from the bound operand names: SPIRIT if any referenced operand realm
is SPIRIT, else SHADOW if any is SHADOW, else MORTAL. -/
theorem c7_result_realm_promotion (st : SpellInterpreter) (op : OperationType)
    (operands : List String) (res : String) (st' : SpellInterpreter)
    (h : execute_statement st (SpellNode.manifest op operands res) = (st', Option.none)) :
    ((∃ o ∈ operands, (st.spirit_realm.lookup o).map Binding.realm = some RealmType.spirit) →
      (st'.spirit_realm.lookup res).map Binding.realm = some RealmType.spirit) ∧
    ((¬ ∃ o ∈ operands,
        (st.spirit_realm.lookup o).map Binding.realm = some RealmType.spirit) →
      (∃ o ∈ operands, (st.spirit_realm.lookup o).map Binding.realm = some RealmType.shadow) →
      (st'.spirit_realm.lookup res).map Binding.realm = some RealmType.shadow) ∧
    ((∀ o ∈ operands, (st.spirit_realm.lookup o).map Binding.realm ≠ some RealmType.spirit) →
      (∀ o ∈ operands, (st.spirit_realm.lookup o).map Binding.realm ≠ some RealmType.shadow) →
      (st'.spirit_realm.lookup res).map Binding.realm = some RealmType.mortal) := by
  have hkey : (st'.spirit_realm.lookup res).map Binding.realm
      = some (infer_result_realm st.spirit_realm operands) := by
    cases hm : st.executor.manifest_union op with
    | mk r ex2 =>
      cases r with
      | error e0 => simp [execute_statement, hm] at h
      | ok result =>
        simp only [execute_statement, hm, Prod.mk.injEq] at h
        rw [← h.1]
        simp only [SpiritRealm.bind_manifestation, SpiritRealm.lookup]
        rw [lookup_updateBinding]
        rfl
  have hc := infer_result_realm_cases st.spirit_realm operands
  refine ⟨fun hs => ?_, fun hns hsh => ?_, fun hns hnsh => ?_⟩
  · rw [hkey, hc.1 hs]
  · rw [hkey, hc.2.1 hns hsh]
  · rw [hkey, hc.2.2 hns hnsh]

/-- C7 witness: a SPIRIT-realm operand combined with a MORTAL-realm
operand yields a SPIRIT-realm result binding. -/
theorem c7_result_realm_promotion_witness :
    ((execute_statement
        ⟨⟨[("a", ⟨Value.int 2, RealmType.spirit, "int"⟩),
           ("b", ⟨Value.int 3, RealmType.mortal, "int"⟩)]⟩,
          ⟨some (Value.int 2), some (Value.int 3)⟩, fun _ => "", 0⟩
        (SpellNode.manifest OperationType.union ["a", "b"] "z")).1.spirit_realm.lookup
        "z").map Binding.realm = some RealmType.spirit :=
  (c7_result_realm_promotion
    ⟨⟨[("a", ⟨Value.int 2, RealmType.spirit, "int"⟩),
       ("b", ⟨Value.int 3, RealmType.mortal, "int"⟩)]⟩,
      ⟨some (Value.int 2), some (Value.int 3)⟩, fun _ => "", 0⟩
    OperationType.union ["a", "b"] "z" _ rfl).1 ⟨"a", by simp, rfl⟩

/-- C8: a Conditional or WhileLoop statement reaching the dispatcher
after a successful prefix falls into the unrecognized-tag arm: the run
ends there with the unknown-statement error and nothing after it
executes. -/
theorem c8_control_flow_unknown (st : SpellInterpreter) (pre rest : List SpellNode)
    (st1 : SpellInterpreter) (cond : ConditionExpr) (thens : List SpellNode)
    (elses : Option (List SpellNode)) (body : List SpellNode)
    (h : execute_spell_program st pre = (st1, Option.none)) :
    execute_spell_program st (pre ++ SpellNode.conditional cond thens elses :: rest)
      = (st1, some RunErr.unknown_statement) ∧
    execute_spell_program st (pre ++ SpellNode.whileLoop cond body :: rest)
      = (st1, some RunErr.unknown_statement) := by
  constructor <;>
    rw [execute_spell_program_append pre st st1 _ h] <;>
    simp [execute_spell_program, execute_statement]

/-- C8 witness: a one-statement program holding a Conditional (and one
holding a WhileLoop) aborts with the unknown-statement error. -/
theorem c8_control_flow_unknown_witness :
    execute_spell_program ⟨⟨[]⟩, ⟨Option.none, Option.none⟩, fun _ => "", 0⟩
        ([] ++ SpellNode.conditional (ConditionExpr.text "go") [] Option.none :: [])
      = (⟨⟨[]⟩, ⟨Option.none, Option.none⟩, fun _ => "", 0⟩,
          some RunErr.unknown_statement) ∧
    execute_spell_program ⟨⟨[]⟩, ⟨Option.none, Option.none⟩, fun _ => "", 0⟩
        ([] ++ SpellNode.whileLoop (ConditionExpr.text "go") [] :: [])
      = (⟨⟨[]⟩, ⟨Option.none, Option.none⟩, fun _ => "", 0⟩,
          some RunErr.unknown_statement) :=
  c8_control_flow_unknown ⟨⟨[]⟩, ⟨Option.none, Option.none⟩, fun _ => "", 0⟩ [] []
    ⟨⟨[]⟩, ⟨Option.none, Option.none⟩, fun _ => "", 0⟩
    (ConditionExpr.text "go") [] Option.none [] rfl

/-- C9: mortal coercion tries the integer parse first, so any text
accepted by the integer parse is stored and read back as that integer;
every text the integer parse rejects is stored as the text itself
(which for a one-character text is that character). -/
theorem c9_mortal_int_coercion :
    (∀ (env : SpiritRealm) (name text : String) (k : ℤ),
      pyIntParse text = some k →
      (env.summon_spirit name text RealmType.mortal).get_spirit_essence name
        = Except.ok (Value.int k)) ∧
    (∀ text : String, pyIntParse text = Option.none →
      convert_mortal text = Value.str text) := by
  constructor
  · intro env name text k h
    unfold SpiritRealm.get_spirit_essence
    have hl := lookup_updateBinding env.spirits name
      ⟨convert_by_realm text RealmType.mortal, RealmType.mortal,
        infer_type text RealmType.mortal⟩
    simp only [SpiritRealm.summon_spirit, SpiritRealm.lookup] at hl ⊢
    rw [hl]
    simp [convert_by_realm, convert_inner, convert_mortal, h]
  · intro text h
    unfold convert_mortal
    rw [h]
    show (if text.length = 1 then Value.str text else Value.str text) = Value.str text
    split <;> rfl

/-- C9 witness: summoning "123" into the mortal realm yields the
integer 123. -/
theorem c9_mortal_int_coercion_witness :
    (SpiritRealm.summon_spirit ⟨[]⟩ "x" "123" RealmType.mortal).get_spirit_essence "x"
      = Except.ok (Value.int 123) :=
  c9_mortal_int_coercion.1 ⟨[]⟩ "x" "123" 123 rfl

/-- C10: operand names with no binding are skipped by the result-realm
inference — removing an unbound name never changes the inferred realm,
and when no listed operand is bound the result realm is MORTAL. -/
theorem c10_unbound_operands_skipped (env : SpiritRealm) :
    (∀ (pre post : List String) (x : String), env.lookup x = Option.none →
      infer_result_realm env (pre ++ x :: post) = infer_result_realm env (pre ++ post)) ∧
    (∀ operands : List String, (∀ o ∈ operands, env.lookup o = Option.none) →
      infer_result_realm env operands = RealmType.mortal) := by
  constructor
  · intro pre post x hx
    have hfm : (pre ++ x :: post).filterMap (fun o => (env.lookup o).map Binding.realm)
        = (pre ++ post).filterMap (fun o => (env.lookup o).map Binding.realm) := by
      simp [List.filterMap_append, List.filterMap_cons, hx]
    simp only [infer_result_realm]
    rw [hfm]
  · intro operands hall
    have hfm : operands.filterMap (fun o => (env.lookup o).map Binding.realm) = [] := by
      rw [List.filterMap_eq_nil_iff]
      intro o ho
      rw [hall o ho]
      rfl
    simp only [infer_result_realm]
    rw [hfm]
    simp

/-- C10 witness: with an empty Environment every operand name is
unbound; dropping one changes nothing and the inferred realm is
MORTAL. -/
theorem c10_unbound_operands_skipped_witness :
    infer_result_realm ⟨[]⟩ (["x"] ++ "y" :: []) = infer_result_realm ⟨[]⟩ (["x"] ++ []) ∧
    infer_result_realm ⟨[]⟩ ["x"] = RealmType.mortal :=
  ⟨(c10_unbound_operands_skipped ⟨[]⟩).1 ["x"] [] "y" rfl,
   (c10_unbound_operands_skipped ⟨[]⟩).2 ["x"] (fun _ _ => rfl)⟩

end RuneScribe
